import Mathlib

/-!
Verification of the user-profile-manager module: a `ValidatedProperty`
descriptor with three validators (username, email, last_login), a
class-level mutable default for `last_login`, and a weak-reference
identity cache on the `UserProfileManager` class.

Modelling choices:
* Python runtime values relevant to the module are `PyValue`
  (strings, datetime objects, ints, bools, and `None`).
* Profile instances are identified by their identity (`id()` in the
  source), modelled as a natural number.
* The per-descriptor `WeakKeyDictionary` and the class cache
  (`WeakValueDictionary`) are association lists with Python-dict
  update semantics (assignment overwrites the existing key).
* A raised `ValueError` is modelled as the `some msg` component of the
  result of a write; a write that does not raise yields `none` there.
* Garbage-collection of an instance is modelled by an explicit
  `reclaim` operation that removes the instance from the weak
  containers, following the documented behaviour of
  `weakref.WeakKeyDictionary` (entries discarded when the key is
  reclaimed) and `weakref.WeakValueDictionary` (entries discarded when
  the value is reclaimed).
-/

/-- The Python values the module manipulates: `None`, `str`, `datetime`
instances (abstracted to an integer timestamp), `int` and `bool`. -/
inductive PyValue where
  | none
  | str (s : String)
  | datetime (t : Int)
  | int (n : Int)
  | bool (b : Bool)
  deriving DecidableEq, Repr

/-- `validate_username` from the source: `isinstance(value, str)` and
non-emptiness, otherwise a `ValueError` whose message is the field name
followed by " must be a non-empty string". -/
def validate_username (value : PyValue) (name : String) : Except String Unit :=
  match value with
  | PyValue.str s =>
      if s = "" then Except.error (name ++ " must be a non-empty string")
      else Except.ok ()
  | _ => Except.error (name ++ " must be a non-empty string")

/-- `validate_email` from the source: first the `isinstance(value, str)`
check, then membership of `'@'` and `'.'` in the string. -/
def validate_email (value : PyValue) (name : String) : Except String Unit :=
  match value with
  | PyValue.str s =>
      if !(s.data.contains '@') || !(s.data.contains '.') then
        Except.error (name ++ " must contain '@' and '.'")
      else Except.ok ()
  | _ => Except.error (name ++ " must be a string")

/-- `validate_last_login` from the source: the value must be `None` or a
`datetime` instance. -/
def validate_last_login (value : PyValue) (name : String) : Except String Unit :=
  match value with
  | PyValue.none => Except.ok ()
  | PyValue.datetime _ => Except.ok ()
  | _ => Except.error (name ++ " must be a datetime object or None")

/-- An association list with Python-dict behaviour, used both for each
descriptor's `values` store (instance id, PyValue) and for the class
cache (instance id, instance id). -/
def dictGet {α : Type} : List (Nat × α) → Nat → Option α
  | [], _ => Option.none
  | (k, v) :: rest, i => if k = i then some v else dictGet rest i

/-- Python-dict assignment: overwrite the entry for the key if present,
append otherwise. -/
def dictSet {α : Type} : List (Nat × α) → Nat → α → List (Nat × α)
  | [], i, v => [(i, v)]
  | (k, w) :: rest, i, v =>
      if k = i then (i, v) :: rest else (k, w) :: dictSet rest i v

/-- The per-descriptor `values` store (`WeakKeyDictionary`): instance id
mapped to the stored value. -/
abbrev Store := List (Nat × PyValue)

/-- The descriptor after `__set_name__` ran: a configured validator and
the bound attribute name. -/
structure ValidatedProperty where
  validator : Option (PyValue → String → Except String Unit)
  name : String

/-- `ValidatedProperty.__get__` for an instance access (the
`instance is None` branch, which returns the descriptor itself, is
class-level access and not modelled): if the name is `last_login` and
the instance is not in `values`, the class attribute
`default_last_login` is returned; otherwise `values.get(instance)`,
whose dict default is `None`. -/
def ValidatedProperty.get (p : ValidatedProperty) (values : Store)
    (default_last_login : PyValue) (inst : Nat) : PyValue :=
  if p.name = "last_login" ∧ dictGet values inst = Option.none then
    default_last_login
  else (dictGet values inst).getD PyValue.none

/-- `ValidatedProperty.__set__`: run the validator when configured; a
raised `ValueError` (the `some msg` component) propagates before the
store is touched; otherwise `values[instance] = value`. -/
def ValidatedProperty.set (p : ValidatedProperty) (values : Store)
    (inst : Nat) (value : PyValue) : Option String × Store :=
  match p.validator with
  | Option.none => (Option.none, dictSet values inst value)
  | some f =>
      match f value p.name with
      | Except.error e => (some e, values)
      | Except.ok _ => (Option.none, dictSet values inst value)

/-- The `username` class attribute: `ValidatedProperty(validate_username)`
bound to the name `username`. -/
def username : ValidatedProperty :=
  { validator := some validate_username, name := "username" }

/-- The `email` class attribute: `ValidatedProperty(validate_email)`
bound to the name `email`. -/
def email : ValidatedProperty :=
  { validator := some validate_email, name := "email" }

/-- The `last_login` class attribute:
`ValidatedProperty(validate_last_login)` bound to the name `last_login`. -/
def last_login : ValidatedProperty :=
  { validator := some validate_last_login, name := "last_login" }

/-- The class cache `_cache` (`WeakValueDictionary`): instance id mapped
to the instance (itself identified by its id). -/
abbrev Cache := List (Nat × Nat)

/-- `id(instance)`: in the model an instance is represented by its
identity, so the synthetic key of an instance is the instance itself. -/
def idOf (inst : Nat) : Nat := inst

/-- `UserProfileManager.add_to_cache`: `cls._cache[id(instance)] = instance`. -/
def add_to_cache (cache : Cache) (inst : Nat) : Cache :=
  dictSet cache (idOf inst) inst

/-- `UserProfileManager.get_from_cache`: `cls._cache.get(instance_id)`. -/
def get_from_cache (cache : Cache) (instance_id : Nat) : Option Nat :=
  dictGet cache instance_id

/-- The cache of a freshly created class. -/
def emptyCache : Cache := []

/-- A sequence of `add_to_cache` calls. -/
def runAdds (cache : Cache) (ops : List Nat) : Cache :=
  ops.foldl add_to_cache cache

/-- Reclamation of instance `e` as observed through the class cache: a
`WeakValueDictionary` discards every entry whose value was reclaimed. -/
def reclaimCache (cache : Cache) (e : Nat) : Cache :=
  cache.filter (fun p => p.2 != e)

/-- Reclamation of instance `e` as observed through a descriptor's
`values` store: a `WeakKeyDictionary` discards every entry whose key was
reclaimed. -/
def reclaimStore (values : Store) (e : Nat) : Store :=
  values.filter (fun p => p.1 != e)

/-- The message shape stated by the spec for validation failures: the
field name followed by " must be ...". -/
def specMessageShape (field_name msg : String) : Bool :=
  (field_name ++ " must be").data.isPrefixOf msg.data

/-- The error-message component of a validator result. -/
def validationMessage (r : Except String Unit) : Option String :=
  match r with
  | Except.error e => some e
  | Except.ok _ => Option.none

/-- The spec-side characterisation of an acceptable email value: a
string containing both characters. -/
def spec_email_ok (v : PyValue) : Prop :=
  ∃ s, v = PyValue.str s ∧ s.data.contains '@' = true ∧ s.data.contains '.' = true

/-! ## Dictionary lemmas -/

theorem dictGet_dictSet_self {α : Type} (d : List (Nat × α)) (k : Nat) (v : α) :
    dictGet (dictSet d k v) k = some v := by
  induction d with
  | nil => simp [dictGet, dictSet]
  | cons p rest ih =>
    obtain ⟨q, w⟩ := p
    by_cases h : q = k
    · simp [dictSet, dictGet, h]
    · simp [dictSet, dictGet, h, ih]

theorem dictGet_dictSet_ne {α : Type} (d : List (Nat × α)) (k j : Nat) (v : α)
    (h : j ≠ k) : dictGet (dictSet d k v) j = dictGet d j := by
  have hk : k ≠ j := Ne.symm h
  induction d with
  | nil => simp [dictGet, dictSet, hk]
  | cons p rest ih =>
    obtain ⟨q, w⟩ := p
    by_cases hq : q = k
    · subst hq
      simp [dictSet, dictGet, hk]
    · simp [dictSet, dictGet, hq, ih]

theorem dictGet_eq_none_of_keys_ne {α : Type} (d : List (Nat × α)) (e : Nat)
    (h : ∀ p ∈ d, p.1 ≠ e) : dictGet d e = Option.none := by
  induction d with
  | nil => rfl
  | cons p rest ih =>
    obtain ⟨q, w⟩ := p
    have hq : q ≠ e := h (q, w) (List.mem_cons_self _ _)
    simp only [dictGet, if_neg hq]
    exact ih fun r hr => h r (List.mem_cons_of_mem _ hr)

theorem mem_dictSet {α : Type} (d : List (Nat × α)) (k : Nat) (v : α) :
    ∀ p ∈ dictSet d k v, p = (k, v) ∨ p ∈ d := by
  induction d with
  | nil => intro p hp; simp [dictSet] at hp; left; exact hp
  | cons q rest ih =>
    intro p hp
    by_cases h : q.1 = k
    · obtain ⟨q1, q2⟩ := q
      simp only at h
      simp only [dictSet, if_pos h] at hp
      rcases List.mem_cons.mp hp with h1 | h2
      · left; exact h1
      · right; exact List.mem_cons_of_mem _ h2
    · obtain ⟨q1, q2⟩ := q
      simp only at h
      simp only [dictSet, if_neg h] at hp
      rcases List.mem_cons.mp hp with h1 | h2
      · right; exact h1 ▸ List.mem_cons_self _ _
      · rcases ih p h2 with h3 | h4
        · left; exact h3
        · right; exact List.mem_cons_of_mem _ h4

/-! ## Cache trace lemmas -/

theorem get_runAdds (ops : List Nat) (cache : Cache) (k : Nat) :
    get_from_cache (runAdds cache ops) k =
      if k ∈ ops then some k else get_from_cache cache k := by
  induction ops generalizing cache with
  | nil => simp [runAdds]
  | cons o rest ih =>
    have hstep : runAdds cache (o :: rest) = runAdds (add_to_cache cache o) rest := rfl
    rw [hstep, ih]
    by_cases hmem : k ∈ rest
    · simp [hmem, List.mem_cons]
    · by_cases hk : k = o
      · subst hk
        simp [hmem, List.mem_cons, get_from_cache, add_to_cache, idOf,
          dictGet_dictSet_self]
      · simp [hmem, hk, List.mem_cons, get_from_cache, add_to_cache, idOf,
          dictGet_dictSet_ne _ _ _ _ hk]

theorem runAdds_id_keyed (ops : List Nat) (cache : Cache)
    (h : ∀ p ∈ cache, p.2 = p.1) : ∀ p ∈ runAdds cache ops, p.2 = p.1 := by
  induction ops generalizing cache with
  | nil => exact h
  | cons o rest ih =>
    have hstep : runAdds cache (o :: rest) = runAdds (add_to_cache cache o) rest := rfl
    rw [hstep]
    refine ih (add_to_cache cache o) ?_
    intro p hp
    rcases mem_dictSet cache (idOf o) o p hp with h1 | h2
    · rw [h1]; rfl
    · exact h p h2

/-! ## Validator error-message lemmas -/

theorem validate_username_error (v : PyValue) (n e : String)
    (h : validate_username v n = Except.error e) :
    e = n ++ " must be a non-empty string" := by
  cases v with
  | str s =>
    by_cases hs : s = ""
    · simp [validate_username, hs] at h
      exact h.symm
    · simp [validate_username, hs] at h
  | none => simp [validate_username] at h; exact h.symm
  | datetime t => simp [validate_username] at h; exact h.symm
  | int m => simp [validate_username] at h; exact h.symm
  | bool b => simp [validate_username] at h; exact h.symm

theorem validate_email_error (v : PyValue) (n e : String)
    (h : validate_email v n = Except.error e) :
    e = n ++ " must be a string" ∨ e = n ++ " must contain '@' and '.'" := by
  cases v with
  | str s =>
    by_cases ha : '@' ∈ s.data
    · by_cases hd : '.' ∈ s.data
      · simp [validate_email, ha, hd] at h
      · simp [validate_email, ha, hd] at h
        right; exact h.symm
    · simp [validate_email, ha] at h
      right; exact h.symm
  | none => simp [validate_email] at h; left; exact h.symm
  | datetime t => simp [validate_email] at h; left; exact h.symm
  | int m => simp [validate_email] at h; left; exact h.symm
  | bool b => simp [validate_email] at h; left; exact h.symm

theorem validate_last_login_error (v : PyValue) (n e : String)
    (h : validate_last_login v n = Except.error e) :
    e = n ++ " must be a datetime object or None" := by
  cases v with
  | none => simp [validate_last_login] at h
  | datetime t => simp [validate_last_login] at h
  | str s => simp [validate_last_login] at h; exact h.symm
  | int m => simp [validate_last_login] at h; exact h.symm
  | bool b => simp [validate_last_login] at h; exact h.symm

/-- The field name followed by " must " is an initial segment of a
message of the form name ++ (" must " ++ r). -/
theorem must_data_isPrefix (n m r : String) (hm : m = " must " ++ r) :
    (n ++ " must ").data <+: (n ++ m).data := by
  subst hm
  refine ⟨r.data, ?_⟩
  simp [String.data_append, List.append_assoc]

/-! ## Reclamation lemmas -/

theorem reclaimStore_keys_ne (values : Store) (e : Nat) :
    ∀ p ∈ reclaimStore values e, p.1 ≠ e := by
  intro p hp
  have h := List.mem_filter.mp hp
  simpa using h.2

theorem dictGet_reclaimStore (values : Store) (e : Nat) :
    dictGet (reclaimStore values e) e = Option.none :=
  dictGet_eq_none_of_keys_ne _ e (reclaimStore_keys_ne values e)

theorem dictGet_reclaimCache (cache : Cache) (e : Nat)
    (hid : ∀ p ∈ cache, p.2 = p.1) :
    get_from_cache (reclaimCache cache e) e = Option.none := by
  refine dictGet_eq_none_of_keys_ne _ e ?_
  intro p hp
  have h := List.mem_filter.mp hp
  have h2 : p.2 ≠ e := by simpa using h.2
  have h1 : p.2 = p.1 := hid p h.1
  rw [← h1]
  exact h2

/-! ## Claim theorems -/

/-- C1: for every non-empty string v and every profile instance, writing
v to username succeeds (no exception) and a subsequent read of username
on that instance returns v. -/
theorem username_roundtrip (s : String) (hs : s ≠ "") (values : Store)
    (i : Nat) (d : PyValue) :
    (username.set values i (PyValue.str s)).1 = Option.none ∧
    username.get (username.set values i (PyValue.str s)).2 d i = PyValue.str s := by
  have hval : validate_username (PyValue.str s) "username" = Except.ok () := by
    simp [validate_username, hs]
  constructor
  · simp [username, ValidatedProperty.set, hval]
  · simp [username, ValidatedProperty.set, hval, ValidatedProperty.get,
      dictGet_dictSet_self]

/-- Witness for username_roundtrip at the string "alice". -/
theorem username_roundtrip_witness :
    (username.set [] 0 (PyValue.str "alice")).1 = Option.none ∧
    username.get (username.set [] 0 (PyValue.str "alice")).2 PyValue.none 0 =
      PyValue.str "alice" :=
  username_roundtrip "alice" (by decide) [] 0 PyValue.none

/-- The email validator succeeds exactly on strings containing both
characters. -/
theorem validate_email_ok_iff (v : PyValue) (n : String) :
    validate_email v n = Except.ok () ↔ spec_email_ok v := by
  cases v with
  | str s =>
    by_cases ha : '@' ∈ s.data
    · by_cases hd : '.' ∈ s.data
      · simp [validate_email, ha, hd, spec_email_ok]
      · simp [validate_email, ha, hd, spec_email_ok]
    · simp [validate_email, ha, spec_email_ok]
  | none => simp [validate_email, spec_email_ok]
  | datetime t => simp [validate_email, spec_email_ok]
  | int m => simp [validate_email, spec_email_ok]
  | bool b => simp [validate_email, spec_email_ok]

/-- C2: a write to email succeeds exactly when the value is a string
containing both characters; a successful write round-trips on read; any
other value is rejected with an exception. -/
theorem email_write_characterization (v : PyValue) (values : Store)
    (i : Nat) (d : PyValue) :
    ((email.set values i v).1 = Option.none ↔ spec_email_ok v) ∧
    (spec_email_ok v → email.get (email.set values i v).2 d i = v) ∧
    (¬ spec_email_ok v → ∃ e, (email.set values i v).1 = some e) := by
  refine ⟨⟨?_, ?_⟩, ?_, ?_⟩
  · intro h
    cases hv : validate_email v "email" with
    | ok u => cases u; exact (validate_email_ok_iff v "email").mp hv
    | error e => simp [email, ValidatedProperty.set, hv] at h
  · intro hok
    have hv := (validate_email_ok_iff v "email").mpr hok
    simp [email, ValidatedProperty.set, hv]
  · intro hok
    have hv := (validate_email_ok_iff v "email").mpr hok
    simp [email, ValidatedProperty.set, hv, ValidatedProperty.get,
      dictGet_dictSet_self]
  · intro hno
    cases hv : validate_email v "email" with
    | ok u => cases u; exact absurd ((validate_email_ok_iff v "email").mp hv) hno
    | error e => exact ⟨e, by simp [email, ValidatedProperty.set, hv]⟩

/-- Witness for email_write_characterization: a valid and an invalid
email value. -/
theorem email_write_characterization_witness :
    email.get (email.set [] 0 (PyValue.str "a@b.c")).2 PyValue.none 0 =
      PyValue.str "a@b.c" ∧
    (∃ e, (email.set [] 0 (PyValue.str "alice-example.com")).1 = some e) :=
  ⟨(email_write_characterization (PyValue.str "a@b.c") [] 0 PyValue.none).2.1
      ⟨"a@b.c", rfl, by decide, by decide⟩,
    (email_write_characterization (PyValue.str "alice-example.com") [] 0
        PyValue.none).2.2
      (fun hok => by
        rcases hok with ⟨s, hs, h1, h2⟩
        cases hs
        exact absurd h1 (by decide))⟩

/-- C3: a rejected write (one whose validator raises) leaves the
descriptor's store untouched, so every observable value on every
instance is unchanged. -/
theorem rejected_write_all_or_nothing (p : ValidatedProperty)
    (values : Store) (i j : Nat) (v d : PyValue) (e : String)
    (h : (p.set values i v).1 = some e) :
    (p.set values i v).2 = values ∧
    p.get (p.set values i v).2 d j = p.get values d j := by
  cases hval : p.validator with
  | none => simp [ValidatedProperty.set, hval] at h
  | some f =>
    cases hr : f v p.name with
    | ok u => simp [ValidatedProperty.set, hval, hr] at h
    | error msg => exact ⟨by simp [ValidatedProperty.set, hval, hr],
        by simp [ValidatedProperty.set, hval, hr]⟩

/-- Witness for rejected_write_all_or_nothing: an empty username is
rejected and the store stays empty. -/
theorem rejected_write_all_or_nothing_witness :
    (username.set [] 0 (PyValue.str "")).2 = [] ∧
    username.get (username.set [] 0 (PyValue.str "")).2 PyValue.none 1 =
      username.get [] PyValue.none 1 :=
  rejected_write_all_or_nothing username [] 0 1 (PyValue.str "") PyValue.none
    "username must be a non-empty string" (by decide)

/-- C4: writing None to last_login always succeeds; writing any value
that is neither None nor a datetime fails with the validator's
exception. -/
theorem last_login_write_policy (values : Store) (i : Nat) (v : PyValue)
    (hv : (∀ t, v ≠ PyValue.datetime t) ∧ v ≠ PyValue.none) :
    (last_login.set values i PyValue.none).1 = Option.none ∧
    (last_login.set values i v).1 =
      some "last_login must be a datetime object or None" := by
  constructor
  · simp [last_login, ValidatedProperty.set, validate_last_login]
  · obtain ⟨h1, h2⟩ := hv
    cases v with
    | none => exact absurd rfl h2
    | datetime t => exact absurd rfl (h1 t)
    | str s => simp [last_login, ValidatedProperty.set, validate_last_login]
    | int m => simp [last_login, ValidatedProperty.set, validate_last_login]
    | bool b => simp [last_login, ValidatedProperty.set, validate_last_login]

/-- Witness for last_login_write_policy at an int value. -/
theorem last_login_write_policy_witness :
    (last_login.set [] 0 PyValue.none).1 = Option.none ∧
    (last_login.set [] 0 (PyValue.int 3)).1 =
      some "last_login must be a datetime object or None" :=
  last_login_write_policy [] 0 (PyValue.int 3) ⟨fun t => by simp, by simp⟩

/-- C5: on an instance whose last_login was never written, a read of
last_login returns whatever default_last_login holds at read time; two
different defaults give two different read results. -/
theorem last_login_unset_reads_default (values : Store) (i : Nat)
    (d d2 : PyValue) (h : dictGet values i = Option.none) :
    last_login.get values d i = d ∧ last_login.get values d2 i = d2 := by
  constructor <;> simp [last_login, ValidatedProperty.get, h]

/-- Witness for last_login_unset_reads_default on a fresh instance. -/
theorem last_login_unset_reads_default_witness :
    last_login.get [] PyValue.none 0 = PyValue.none ∧
    last_login.get [] (PyValue.datetime 7) 0 = PyValue.datetime 7 :=
  last_login_unset_reads_default [] 0 PyValue.none (PyValue.datetime 7) rfl

/-- C6 counterexample: the email validator rejects a string lacking the
at-sign with the message "email must contain '@' and '.'", which does
not have the spec's stated shape (field name followed by " must be"). -/
theorem message_shape_counterexample :
    validationMessage
        (validate_email (PyValue.str "alice-example.com") "email") =
      some "email must contain '@' and '.'" ∧
    specMessageShape "email" "email must contain '@' and '.'" = false := by
  constructor
  · decide
  · decide

/-- C6 amended: every validation failure message of the three validators
begins with the field name followed by " must ". -/
theorem message_begins_with_field_name (v : PyValue) (n e : String)
    (h : validate_username v n = Except.error e ∨
         validate_email v n = Except.error e ∨
         validate_last_login v n = Except.error e) :
    (n ++ " must ").data <+: e.data := by
  rcases h with h | h | h
  · rw [validate_username_error v n e h]
    exact must_data_isPrefix n _ "be a non-empty string" rfl
  · rcases validate_email_error v n e h with he | he
    · rw [he]
      exact must_data_isPrefix n _ "be a string" rfl
    · rw [he]
      exact must_data_isPrefix n _ "contain '@' and '.'" rfl
  · rw [validate_last_login_error v n e h]
    exact must_data_isPrefix n _ "be a datetime object or None" rfl

/-- Witness for message_begins_with_field_name on the email validator's
containment message. -/
theorem message_begins_with_field_name_witness :
    ("email" ++ " must ").data <+:
      ("email must contain '@' and '.'" : String).data :=
  message_begins_with_field_name (PyValue.str "no-at-sign") "email"
    "email must contain '@' and '.'" (Or.inr (Or.inl (by rfl)))

/-- C7: a read never fails and returns the stored value when one was
written; when none was written it returns the class default for
last_login and None for every other field. -/
theorem read_total_characterization (p : ValidatedProperty) (values : Store)
    (d : PyValue) (i : Nat) :
    (∀ v, dictGet values i = some v → p.get values d i = v) ∧
    (dictGet values i = Option.none → p.name = "last_login" →
      p.get values d i = d) ∧
    (dictGet values i = Option.none → p.name ≠ "last_login" →
      p.get values d i = PyValue.none) := by
  refine ⟨?_, ?_, ?_⟩
  · intro v hv
    simp [ValidatedProperty.get, hv]
  · intro hv hn
    simp [ValidatedProperty.get, hv, hn]
  · intro hv hn
    simp [ValidatedProperty.get, hv, hn]

/-- Witness for read_total_characterization on the three fields. -/
theorem read_total_characterization_witness :
    username.get [(0, PyValue.str "a")] PyValue.none 0 = PyValue.str "a" ∧
    last_login.get [] (PyValue.datetime 3) 1 = PyValue.datetime 3 ∧
    email.get [] PyValue.none 2 = PyValue.none :=
  ⟨(read_total_characterization username [(0, PyValue.str "a")]
        PyValue.none 0).1 (PyValue.str "a") rfl,
    (read_total_characterization last_login [] (PyValue.datetime 3) 1).2.1
      rfl rfl,
    (read_total_characterization email [] PyValue.none 2).2.2 rfl (by decide)⟩

/-- C8: starting from the empty cache, after any sequence of
add_to_cache calls, a lookup under a key returns the entity of that
identity exactly when it was inserted, and never returns a different
entity. -/
theorem cache_lookup_characterization (ops : List Nat) (k e1 e2 : Nat)
    (hne : e1 ≠ e2) :
    get_from_cache (runAdds emptyCache ops) k =
      (if k ∈ ops then some k else Option.none) ∧
    get_from_cache (runAdds emptyCache ops) e1 ≠ some e2 := by
  have hchar : ∀ j, get_from_cache (runAdds emptyCache ops) j =
      (if j ∈ ops then some j else Option.none) := by
    intro j
    rw [get_runAdds]
    simp [get_from_cache, emptyCache, dictGet]
  refine ⟨hchar k, ?_⟩
  rw [hchar e1]
  by_cases hmem : e1 ∈ ops
  · simp [hmem, hne]
  · simp [hmem]

/-- Witness for cache_lookup_characterization with two entities. -/
theorem cache_lookup_characterization_witness :
    get_from_cache (runAdds emptyCache [1, 2]) 1 = some 1 ∧
    get_from_cache (runAdds emptyCache [1, 2]) 1 ≠ some 2 := by
  have h := cache_lookup_characterization [1, 2] 1 1 2 (by decide)
  refine ⟨?_, h.2⟩
  rw [h.1]
  decide

/-- C9: the weak containers do not extend an entity's lifetime: once the
entity is reclaimed, the cache lookup under its key returns None and
the descriptor's value store holds no entry for it. -/
theorem reclaim_removes_entity (ops : List Nat) (e : Nat) (values : Store)
    (v : PyValue) :
    get_from_cache (reclaimCache (runAdds emptyCache ops) e) e = Option.none ∧
    dictGet (reclaimStore (dictSet values e v) e) e = Option.none ∧
    ∀ p ∈ reclaimStore (dictSet values e v) e, p.1 ≠ e :=
  ⟨dictGet_reclaimCache _ e
      (runAdds_id_keyed ops emptyCache
        (by intro p hp; exact absurd hp (List.not_mem_nil p))),
    dictGet_reclaimStore _ e,
    reclaimStore_keys_ne _ e⟩

/-- C10: an explicitly written None on last_login shadows the class
default: after such a write, a read returns None whatever
default_last_login currently is. -/
theorem explicit_none_shadows_default (values : Store) (i : Nat) (d : PyValue) :
    (last_login.set values i PyValue.none).1 = Option.none ∧
    last_login.get (last_login.set values i PyValue.none).2 d i =
      PyValue.none := by
  constructor
  · simp [last_login, ValidatedProperty.set, validate_last_login]
  · simp [last_login, ValidatedProperty.set, validate_last_login,
      ValidatedProperty.get, dictGet_dictSet_self]
